import Mathlib

/-!
Verification of the concurrency core of the `splay` scenario-driven HTTP load
generator (`src/main.go`), shallowly embedded in Lean 4.

Modelling conventions:
* Go `float64` throughput is modelled over `ℚ`; `int(math.Ceil x)` becomes the
  integer ceiling on `ℚ`.
* Go `*int` pointer fields (`Period`, `Count`) become `Option Int`; a nil
  dereference is modelled as propagating `none` (the Go program panics there).
* The external HTTP collaborator is an oracle: each dispatched work unit comes
  with a `RequestOutcome` saying whether `http.NewRequest` failed, whether
  `http.DefaultClient.Do` failed, or which status code the response carried.
* The `golang.org/x/time/rate` limiter and the Go scheduler are external; the
  events the dispatcher can observe in its `select` (a permit from `rlCh`, a
  closed `rlCh`, or `ctx.Done`) form an explicit schedule, a `List DispatchEvent`.
-/

/-- Mirrors `Validate` of src/main.go: a named rule with an optional expected
status code (`StatusCode *int`). -/
structure Validate where
  name : String
  statusCode : Option Int
  deriving DecidableEq

/-- Mirrors `Scenario` of src/main.go. `Throughput float64` is modelled as `ℚ`,
and the pointer fields `Period *int`, `Count *int` as `Option Int`. -/
structure Scenario where
  name : String
  url : String
  period : Option Int
  count : Option Int
  throughput : ℚ
  validates : List Validate

/-- Mirrors the `ResultState` enum of src/main.go
(`ResultOK`, `ResultValidationFail`, `ResultRequestFail`). -/
inductive ResultState where
  | resultOK
  | resultValidationFail
  | resultRequestFail
  deriving DecidableEq

/-- Mirrors `ScenarioReport` of src/main.go. The Go counters are `int` but are
only ever incremented from zero, so they are modelled as `Nat`. -/
structure ScenarioReport where
  successCount : Nat
  validationFailCount : Nat
  requestFailCount : Nat
  deriving DecidableEq

/-- Outcome of the request phase of one work unit, resolved by the external
HTTP collaborator: `http.NewRequest` failed, `http.DefaultClient.Do` failed,
or a response with the given status code arrived (src/main.go lines 105-123). -/
inductive RequestOutcome where
  | buildErr
  | execErr
  | response (statusCode : Int)
  deriving DecidableEq

/-- The failure condition of one iteration of the validation loop in
`scenarioWorker` (line 127): `v.StatusCode != nil && resp.StatusCode != *v.StatusCode`. -/
def validateFails (statusCode : Int) (v : Validate) : Bool :=
  match v.statusCode with
  | some expected => statusCode ≠ expected
  | none => false

/-- The `for _, v := range s.Validates` loop of `scenarioWorker`
(lines 125-134), which stops at the first failing rule via `continue L`.
Returns `Sum.inl n` when some rule failed after `n` rules were evaluated, and
`Sum.inr n` when all `n` declared rules were evaluated and passed. -/
def validatesLoop (statusCode : Int) : List Validate → Nat ⊕ Nat
  | [] => Sum.inr 0
  | v :: vs =>
    if validateFails statusCode v then Sum.inl 1
    else
      match validatesLoop statusCode vs with
      | Sum.inl n => Sum.inl (n + 1)
      | Sum.inr n => Sum.inr (n + 1)

/-- What `scenarioWorker` does with one received work unit. -/
structure UnitStep where
  /-- the single `ResultState` sent on `reportCh` for this unit -/
  outcome : ResultState
  /-- how many completion signals the worker sends on `done` for this unit -/
  doneSignals : Nat
  /-- whether the worker loops back for another unit (`true`) or returns (`false`) -/
  continues : Bool
  /-- how many validation rules were evaluated for this unit -/
  rulesEvaluated : Nat
  deriving DecidableEq

/-- The body of `scenarioWorker` for one received unit (src/main.go lines
105-138), as a function of the request-phase outcome and the declared rules:
* `http.NewRequest` failure: report `ResultRequestFail`, send `done`, `return`;
* `Do` failure: report `ResultRequestFail`, send `done`, `return`;
* some rule fails: report `ResultValidationFail`, NO `done` send, `continue L`;
* all rules pass: report `ResultOK`, send `done`, loop. -/
def workerUnit (r : RequestOutcome) (validates : List Validate) : UnitStep :=
  match r with
  | RequestOutcome.buildErr => ⟨ResultState.resultRequestFail, 1, false, 0⟩
  | RequestOutcome.execErr => ⟨ResultState.resultRequestFail, 1, false, 0⟩
  | RequestOutcome.response code =>
    match validatesLoop code validates with
    | Sum.inl n => ⟨ResultState.resultValidationFail, 0, true, n⟩
    | Sum.inr n => ⟨ResultState.resultOK, 1, true, n⟩

/-- The target-count computation of `ScenarioRun` (src/main.go lines 165-170):
`if s.Period != nil` then `int(math.Ceil(float64(*s.Period) * s.Throughput))`
else `*s.Count`. Dereferencing a nil `Count` (neither field set) panics in Go;
that is modelled as `none`. -/
def targetCount (s : Scenario) : Option Int :=
  match s.period with
  | some p => some ⌈(p : ℚ) * s.throughput⌉
  | none => s.count

/-- One event the dispatch goroutine of `ScenarioRun` (src/main.go lines
180-199) can observe in its `select`: a permit delivered on `rlCh`, `rlCh`
found closed (the rate-limiter goroutine exited after `rl.Wait(ctx)` errored),
or `ctx.Done()` fired. -/
inductive DispatchEvent where
  | permit
  | rlClosed
  | cancel
  deriving DecidableEq

/-- The dispatch loop `for i := 1; i <= count; i++` of the dispatch goroutine
(lines 183-194), run against a schedule of observed events. Returns
`some (c, endedByCount)` where `c` is the final value of the dispatched
counter and `endedByCount` tells whether the loop ran through all `count`
iterations (as opposed to returning early on `ctx.Done()` or a closed `rlCh`);
returns `none` when the schedule is exhausted while the loop still blocks in
its `select`, i.e. this execution has not finished. The enqueue
`scenarioCh <- s` is modelled as immediate (the channel has a buffer of
`httpWorkerNum`). -/
def dispatchLoop : Int → List DispatchEvent → Option (Nat × Bool)
  | remaining, [] => if remaining ≤ 0 then some (0, true) else none
  | remaining, e :: rest =>
    if remaining ≤ 0 then some (0, true)
    else
      match e with
      | DispatchEvent.cancel => some (0, false)
      | DispatchEvent.rlClosed => some (0, false)
      | DispatchEvent.permit =>
        (dispatchLoop (remaining - 1) rest).map (fun p => (p.1 + 1, p.2))

/-- How many completion signals the dispatch goroutine drains from `done`
before its deferred `close(reportCh)` runs (lines 181 and 196-198): the drain
loop `for i := 0; i < c; i++` is reached only when the dispatch loop ran
through all `count` iterations; an early `return` (cancellation or closed
`rlCh`) skips it and closes the report channel at once. -/
def drainTarget (remaining : Int) (evs : List DispatchEvent) : Option Nat :=
  (dispatchLoop remaining evs).map (fun p => if p.2 then p.1 else 0)

/-- The aggregator fold of `ScenarioRun` (lines 201-212): one counter bump per
`ResultState` received from `reportCh`. -/
def bump (rep : ScenarioReport) : ResultState → ScenarioReport
  | ResultState.resultOK =>
    ⟨rep.successCount + 1, rep.validationFailCount, rep.requestFailCount⟩
  | ResultState.resultValidationFail =>
    ⟨rep.successCount, rep.validationFailCount + 1, rep.requestFailCount⟩
  | ResultState.resultRequestFail =>
    ⟨rep.successCount, rep.validationFailCount, rep.requestFailCount + 1⟩

/-- The collection loop `for state := range reportCh` of `ScenarioRun`
(lines 201-212) applied to the outcomes received before the channel closed. -/
def aggregate (outcomes : List ResultState) : ScenarioReport :=
  outcomes.foldl bump ⟨0, 0, 0⟩

/-- Total of the three counters of a report. -/
def sumReport (rep : ScenarioReport) : Nat :=
  rep.successCount + rep.validationFailCount + rep.requestFailCount

/-- One execution of `ScenarioRun` (src/main.go lines 150-218) resolved
against a schedule. `events` are the dispatch-goroutine select outcomes,
`requests` the request-phase results of the dispatched units in dispatch
order (only the first `c` entries are meaningful), and `delivered` the
request-phase results of those units whose outcome report was received by the
collection loop before `reportCh` closed, relevant on the early-return path
where the close races with the workers (on that path `delivered` must be a
sublist of the dispatched units; theorems state this as a hypothesis).
Returns `none` when this execution never returns a report: target-count
computation panics on a nil `Count`, the dispatch loop still blocks, or the
drain loop waits for a completion signal that no worker will send (a unit
whose `workerUnit` step emits no `done`). When the dispatch loop ends by
count, every dispatched unit must supply one completion signal before the
close, and since a worker sends a unit's outcome on the unbuffered `reportCh`
before its `done` signal, all `c` outcomes are received before the close.
Not modelled: exhaustion of the `httpWorkerNum`-sized worker pool (each
request-failed unit terminates one worker, see `workerUnit`; with at least
`httpWorkerNum` such units the remaining queued units are never processed and
the drain blocks), and the Go runtime panic of a worker that completes a unit
after the early close and sends on the closed `reportCh` (the process aborts
and no report is returned); that latter race is made explicit in the refined
`scenarioRunExecClose` below. -/
def scenarioRunExec (s : Scenario) (events : List DispatchEvent)
    (requests : List RequestOutcome) (delivered : List RequestOutcome) :
    Option ScenarioReport :=
  match targetCount s with
  | none => none
  | some n =>
    match dispatchLoop n events with
    | none => none
    | some (c, endedByCount) =>
      if endedByCount then
        if (requests.take c).all
            (fun r => (workerUnit r s.validates).doneSignals = 1) then
          some (aggregate
            ((requests.take c).map (fun r => (workerUnit r s.validates).outcome)))
        else none
      else
        some (aggregate
          (delivered.map (fun r => (workerUnit r s.validates).outcome)))

/-- Modelled from the spec: the rate limiter (package `golang.org/x/time/rate`,
an external collaborator outside src/) at throughput 0. Per section 4.1 of the
spec, R = 0 is legal and yields a permit sequence that never emits, so every
event schedule the dispatcher of a zero-throughput scenario can observe
contains no permit. -/
def ZeroRateSchedule (evs : List DispatchEvent) : Prop :=
  DispatchEvent.permit ∉ evs

/-- Refinement of `scenarioRunExec` on the early-return path, making the race
between the in-flight workers and the deferred `close(reportCh)` (src/main.go
line 181) explicit. On that path the dispatcher closes `reportCh` without
draining, while workers may still be processing dispatched units: `delivered`
lists the units whose outcome was received by the collection loop before the
close, and `late` lists the units whose worker completes and sends its
outcome only after the close. A late send is a send on a closed channel, a Go
runtime panic that aborts the process, so no report is returned (`none`);
with no late unit the run returns the aggregate of the delivered outcomes and
agrees with `scenarioRunExec`. The by-count path is unchanged: there the
dispatcher observed one completion signal per dispatched unit before closing,
and a worker sends a unit outcome on the unbuffered `reportCh` strictly
before its completion signal, so no outcome send can follow the close. -/
def scenarioRunExecClose (s : Scenario) (events : List DispatchEvent)
    (requests delivered late : List RequestOutcome) : Option ScenarioReport :=
  match targetCount s with
  | none => none
  | some n =>
    match dispatchLoop n events with
    | none => none
    | some (c, endedByCount) =>
      if endedByCount then
        if (requests.take c).all
            (fun r => (workerUnit r s.validates).doneSignals = 1) then
          some (aggregate
            ((requests.take c).map (fun r => (workerUnit r s.validates).outcome)))
        else none
      else
        match late with
        | [] => some (aggregate
            (delivered.map (fun r => (workerUnit r s.validates).outcome)))
        | _ :: _ => none

theorem sumReport_bump (rep : ScenarioReport) (st : ResultState) :
    sumReport (bump rep st) = sumReport rep + 1 := by
  cases st <;> simp [bump, sumReport] <;> omega

theorem sumReport_foldl (l : List ResultState) (rep : ScenarioReport) :
    sumReport (l.foldl bump rep) = sumReport rep + l.length := by
  induction l generalizing rep with
  | nil => simp
  | cons st l ih => simp [List.foldl_cons, ih, sumReport_bump]; omega

theorem sumReport_aggregate (l : List ResultState) :
    sumReport (aggregate l) = l.length := by
  unfold aggregate
  rw [sumReport_foldl]
  simp [sumReport]

theorem validatesLoop_all_pass (code : Int) (vs : List Validate)
    (h : ∀ u ∈ vs, validateFails code u = false) :
    validatesLoop code vs = Sum.inr vs.length := by
  induction vs with
  | nil => rfl
  | cons v vs ih =>
    have hv : validateFails code v = false := h v (List.mem_cons_self v vs)
    have hrest := ih (fun u hu => h u (List.mem_cons_of_mem v hu))
    simp [validatesLoop, hv, hrest]

theorem validatesLoop_first_fail (code : Int) (pre post : List Validate)
    (v : Validate) (hpre : ∀ u ∈ pre, validateFails code u = false)
    (hv : validateFails code v = true) :
    validatesLoop code (pre ++ v :: post) = Sum.inl (pre.length + 1) := by
  induction pre with
  | nil => simp [validatesLoop, hv]
  | cons u pre ih =>
    have hu : validateFails code u = false := hpre u (List.mem_cons_self u pre)
    have hrest := ih (fun w hw => hpre w (List.mem_cons_of_mem u hw))
    simp [validatesLoop, hu, hrest]

theorem dispatchLoop_le (evs : List DispatchEvent) :
    ∀ (n : Int) (c : Nat) (b : Bool),
      dispatchLoop n evs = some (c, b) → (c : Int) ≤ max n 0 := by
  induction evs with
  | nil =>
    intro n c b h
    simp only [dispatchLoop] at h
    split at h
    · cases h; positivity
    · cases h
  | cons e rest ih =>
    intro n c b h
    cases e <;> simp only [dispatchLoop] at h
    case cancel =>
      split at h <;> (cases h; positivity)
    case rlClosed =>
      split at h <;> (cases h; positivity)
    case permit =>
      split at h
      · cases h; positivity
      · rename_i hn
        rcases Option.map_eq_some'.mp h with ⟨⟨c', b'⟩, hrec, heq⟩
        cases heq
        have := ih (n - 1) c' b' hrec
        omega

theorem dispatchLoop_no_permit (n : Int) (evs : List DispatchEvent)
    (c : Nat) (b : Bool) (hp : DispatchEvent.permit ∉ evs)
    (h : dispatchLoop n evs = some (c, b)) : c = 0 := by
  cases evs with
  | nil =>
    simp only [dispatchLoop] at h
    split at h
    · cases h; rfl
    · cases h
  | cons e rest =>
    cases e
    case permit => exact absurd (List.mem_cons_self _ _) hp
    case cancel =>
      simp only [dispatchLoop] at h
      split at h <;> (cases h; rfl)
    case rlClosed =>
      simp only [dispatchLoop] at h
      split at h <;> (cases h; rfl)

/-- C1: the claim states that for every dispatched work unit the worker sends
exactly one completion signal on every path, including the validation-failure
path. The code violates this: on the validation-failure path (src/main.go
lines 127-133) `scenarioWorker` sends the `ResultValidationFail` outcome on
`reportCh` but `continue L` skips the `done` send, so zero completion signals
are emitted for that unit, while the request-failure and success paths each
emit exactly one. The dispatcher drain loop (lines 196-198) then waits for a
completion that never comes and the run deadlocks. -/
theorem workerUnit_validation_fail_drops_done :
    (workerUnit (RequestOutcome.response 404) [⟨"status_code=200", some 200⟩]).outcome
      = ResultState.resultValidationFail ∧
    (workerUnit (RequestOutcome.response 404) [⟨"status_code=200", some 200⟩]).doneSignals
      = 0 ∧
    (workerUnit (RequestOutcome.response 200) [⟨"status_code=200", some 200⟩]).doneSignals
      = 1 ∧
    (workerUnit RequestOutcome.buildErr [⟨"status_code=200", some 200⟩]).doneSignals = 1 ∧
    (workerUnit RequestOutcome.execErr [⟨"status_code=200", some 200⟩]).doneSignals = 1 := by
  decide

/-- C9 counterexample: the claim states the executor loops back after
processing any work unit, whatever its outcome classification. At a unit
whose request construction fails, `scenarioWorker` instead returns
(src/main.go line 110), so it does not loop back. -/
theorem worker_exits_on_request_fail_cex :
    (workerUnit RequestOutcome.buildErr []).outcome = ResultState.resultRequestFail ∧
    (workerUnit RequestOutcome.buildErr []).continues = false := by
  decide

/-- C9 amended: the executor exits not only on cancellation but also after
any unit classified `ResultRequestFail` (request construction or execution
failure, src/main.go lines 110 and 121); after a unit classified success or
validation failure it loops back for the next unit. -/
theorem worker_continues_iff_not_request_fail (r : RequestOutcome)
    (vs : List Validate) :
    (workerUnit r vs).continues = true ↔
      (workerUnit r vs).outcome ≠ ResultState.resultRequestFail := by
  cases r with
  | buildErr => simp [workerUnit]
  | execErr => simp [workerUnit]
  | response code =>
    cases h : validatesLoop code vs <;> simp [workerUnit, h]

/-- C5: request construction or execution failure classifies the unit as
`ResultRequestFail` with no validation rule evaluated; on a response, the
rules are evaluated in declared order, evaluation stops at the first failing
rule (the units decomposed as pre ++ v :: post with every rule of pre
passing and v failing), yielding `ResultValidationFail` with the rules after
v skipped; if all declared rules pass, or none are declared, the outcome is
`ResultOK`. -/
theorem workerUnit_classification (code : Int) (vs pre post : List Validate)
    (v : Validate) :
    (workerUnit RequestOutcome.buildErr vs
      = ⟨ResultState.resultRequestFail, 1, false, 0⟩) ∧
    (workerUnit RequestOutcome.execErr vs
      = ⟨ResultState.resultRequestFail, 1, false, 0⟩) ∧
    ((∀ u ∈ vs, validateFails code u = false) →
      (workerUnit (RequestOutcome.response code) vs).outcome = ResultState.resultOK ∧
      (workerUnit (RequestOutcome.response code) vs).rulesEvaluated = vs.length) ∧
    (vs = pre ++ v :: post → (∀ u ∈ pre, validateFails code u = false) →
      validateFails code v = true →
      (workerUnit (RequestOutcome.response code) vs).outcome
        = ResultState.resultValidationFail ∧
      (workerUnit (RequestOutcome.response code) vs).rulesEvaluated
        = pre.length + 1) := by
  refine ⟨rfl, rfl, ?_, ?_⟩
  · intro hall
    rw [workerUnit, validatesLoop_all_pass code vs hall]
    exact ⟨rfl, rfl⟩
  · intro hvs hpre hv
    subst hvs
    rw [workerUnit, validatesLoop_first_fail code pre post v hpre hv]
    exact ⟨rfl, rfl⟩

/-- C5 witness: with a response of status 404 and the declared rules
[status 200, status 500], evaluation stops after the first rule with a
validation failure; with a response of status 200 and the single rule
[status 200], the outcome is success with one rule evaluated. -/
theorem workerUnit_classification_witness :
    (workerUnit (RequestOutcome.response 404)
      [⟨"r1", some 200⟩, ⟨"r2", some 500⟩]).outcome
        = ResultState.resultValidationFail ∧
    (workerUnit (RequestOutcome.response 404)
      [⟨"r1", some 200⟩, ⟨"r2", some 500⟩]).rulesEvaluated = 1 ∧
    (workerUnit (RequestOutcome.response 200) [⟨"r1", some 200⟩]).outcome
      = ResultState.resultOK ∧
    (workerUnit (RequestOutcome.response 200) [⟨"r1", some 200⟩]).rulesEvaluated = 1 := by
  refine ⟨?_, ?_, ?_, ?_⟩
  · exact ((workerUnit_classification 404 [⟨"r1", some 200⟩, ⟨"r2", some 500⟩]
      [] [⟨"r2", some 500⟩] ⟨"r1", some 200⟩).2.2.2 rfl (by simp) (by decide)).1
  · exact ((workerUnit_classification 404 [⟨"r1", some 200⟩, ⟨"r2", some 500⟩]
      [] [⟨"r2", some 500⟩] ⟨"r1", some 200⟩).2.2.2 rfl (by simp) (by decide)).2
  · exact ((workerUnit_classification 200 [⟨"r1", some 200⟩]
      [] [] ⟨"r1", some 200⟩).2.2.1 (by decide)).1
  · exact ((workerUnit_classification 200 [⟨"r1", some 200⟩]
      [] [] ⟨"r1", some 200⟩).2.2.1 (by decide)).2

/-- C4: the target dispatch count is the ceiling of period times throughput
when a period is specified, and is exactly the configured count when an
explicit count is specified instead of a period, regardless of throughput
(src/main.go lines 165-170). -/
theorem targetCount_period_or_count (s : Scenario) :
    (∀ p, s.period = some p →
      targetCount s = some ⌈(p : ℚ) * s.throughput⌉) ∧
    (∀ c, s.period = none → s.count = some c → targetCount s = some c) := by
  constructor
  · intro p hp
    simp [targetCount, hp]
  · intro c hp hc
    simp [targetCount, hp, hc]

/-- C4 witness: a scenario with period 10 and throughput 2 has target
ceil(10 times 2), and a scenario with count 5 (no period) has target 5 even
with throughput 7. -/
theorem targetCount_period_or_count_witness :
    targetCount ⟨"ping", "u", some 10, none, 2, []⟩ = some ⌈(10 : ℚ) * 2⌉ ∧
    targetCount ⟨"ping", "u", none, some 5, 7, []⟩ = some 5 :=
  ⟨(targetCount_period_or_count ⟨"ping", "u", some 10, none, 2, []⟩).1 10 rfl,
   (targetCount_period_or_count ⟨"ping", "u", none, some 5, 7, []⟩).2 5 rfl rfl⟩

/-- C10: when both period and count are set, the target dispatch count is
computed from period times throughput, the count field does not appear in the
result (it is silently ignored), and no error is raised (src/main.go lines
166-170: the `if s.Period != nil` branch wins). -/
theorem targetCount_both_set_period_wins (name url : String) (p c : Int)
    (r : ℚ) (vs : List Validate) :
    targetCount ⟨name, url, some p, some c, r, vs⟩ = some ⌈(p : ℚ) * r⌉ ∧
    targetCount ⟨name, url, some p, some c, r, vs⟩
      = targetCount ⟨name, url, some p, none, r, vs⟩ := by
  constructor <;> simp [targetCount]

/-- C6 counterexample: the claim states that a scenario with both period and
count set is a configuration error surfaced before any dispatch begins and
that the dispatch core never runs on it. On the scenario named s with
period 1, count 5 and throughput 2, no error is raised: the target count is
computed as 2 and the dispatch core runs to completion, dispatching two units
and returning a report. -/
theorem config_error_cex :
    targetCount ⟨"s", "u", some 1, some 5, 2, []⟩ = some 2 ∧
    scenarioRunExec ⟨"s", "u", some 1, some 5, 2, []⟩
      [DispatchEvent.permit, DispatchEvent.permit]
      [RequestOutcome.response 200, RequestOutcome.response 200] []
      = some ⟨2, 0, 0⟩ := by
  have h : targetCount ⟨"s", "u", some 1, some 5, 2, []⟩ = some 2 := by
    norm_num [targetCount]
  exact ⟨h, by simp only [scenarioRunExec, h]; decide⟩

/-- C6 amended: the code performs no such configuration check. A scenario
with both period and count set is not rejected: the target count is computed
from the period and throughput and dispatch proceeds (the count field is
ignored). A scenario with neither set does not produce a configuration error
before dispatch either: `ScenarioRun` dereferences the nil count pointer when
computing the target (src/main.go line 169), a runtime panic, modelled as
`targetCount` returning `none`. -/
theorem config_no_validation_amended (s : Scenario) :
    (∀ p c, s.period = some p → s.count = some c →
      targetCount s = some ⌈(p : ℚ) * s.throughput⌉) ∧
    (s.period = none → s.count = none → targetCount s = none) := by
  constructor
  · intro p c hp hc
    simp [targetCount, hp]
  · intro hp hc
    simp [targetCount, hp, hc]

/-- C6 amended witness: the both-set scenario computes a period-based target;
the neither-set scenario reaches the nil dereference. -/
theorem config_no_validation_amended_witness :
    targetCount ⟨"s", "u", some 10, some 5, 2, []⟩ = some ⌈(10 : ℚ) * 2⌉ ∧
    targetCount ⟨"s", "u", none, none, 2, []⟩ = none :=
  ⟨(config_no_validation_amended ⟨"s", "u", some 10, some 5, 2, []⟩).1 10 5 rfl rfl,
   (config_no_validation_amended ⟨"s", "u", none, none, 2, []⟩).2 rfl rfl⟩

/-- C7 counterexample: the claim states that for every scenario the number of
dispatched units never exceeds the computed target count. A scenario whose
explicit count is -1 has computed target -1, yet the dispatch loop (whose
condition i <= count fails at once) dispatches 0 units, and 0 exceeds -1. -/
theorem dispatched_le_target_cex :
    targetCount ⟨"s", "u", none, some (-1), 1, []⟩ = some (-1) ∧
    dispatchLoop (-1) [] = some (0, true) ∧
    ¬((0 : Int) ≤ (-1 : Int)) := by
  decide

/-- C7 amended: under every schedule of permits and cancellation, the number
of dispatched units never exceeds the computed target count whenever that
target is non-negative; in general it never exceeds the maximum of the target
and 0 (a negative configured count yields zero dispatched units, which
exceeds the negative target). -/
theorem dispatched_le_target_amended (n : Int) (evs : List DispatchEvent)
    (c : Nat) (b : Bool) (hd : dispatchLoop n evs = some (c, b)) :
    (c : Int) ≤ max n 0 ∧ (0 ≤ n → (c : Int) ≤ n) := by
  have h := dispatchLoop_le evs n c b hd
  exact ⟨h, fun hn => (max_eq_left hn) ▸ h⟩

/-- C7 amended witness: with target 2 and two permits, both units are
dispatched and the bound holds. -/
theorem dispatched_le_target_amended_witness :
    dispatchLoop 2 [DispatchEvent.permit, DispatchEvent.permit] = some (2, true) ∧
    (2 : Int) ≤ max 2 0 ∧ ((0 : Int) ≤ 2 → (2 : Int) ≤ 2) :=
  ⟨by decide,
   (dispatched_le_target_amended 2 [DispatchEvent.permit, DispatchEvent.permit]
     2 true (by decide)).1,
   (dispatched_le_target_amended 2 [DispatchEvent.permit, DispatchEvent.permit]
     2 true (by decide)).2⟩

/-- C2 counterexample: the claim states that after dispatch finishes, whether
by count or by cancellation, the dispatcher blocks until it has observed as
many completion signals as units it dispatched and only then closes the
result channel. With target 3, after two permits and a cancellation the
dispatcher has dispatched 2 units but drains 0 completion signals before its
deferred close runs, and the run returns (here with no outcome delivered
before the close). -/
theorem dispatcher_cancel_no_drain_cex :
    dispatchLoop 3 [DispatchEvent.permit, DispatchEvent.permit, DispatchEvent.cancel]
      = some (2, false) ∧
    drainTarget 3 [DispatchEvent.permit, DispatchEvent.permit, DispatchEvent.cancel]
      = some 0 ∧
    (0 : Nat) ≠ 2 ∧
    scenarioRunExec ⟨"s", "u", none, some 3, 1, []⟩
      [DispatchEvent.permit, DispatchEvent.permit, DispatchEvent.cancel]
      [RequestOutcome.response 200, RequestOutcome.response 200] []
      = some ⟨0, 0, 0⟩ := by
  decide

/-- C2 amended: when the dispatch loop completes by reaching the target
count, the dispatcher blocks until it has observed exactly as many completion
signals as units it dispatched and only then closes the result channel; when
the loop ends early, by cancellation or by the permit stream closing, the
dispatcher closes the result channel at once, draining no completion signals,
and the run then returns a report, aggregating the outcomes delivered before
the close, only in those interleavings where no worker completes a dispatched
unit after the close; a worker that does sends on the closed report channel,
a runtime panic that aborts the process with no report. -/
theorem dispatcher_drain_close_amended (n : Int) (evs : List DispatchEvent)
    (c : Nat) (b : Bool) (hd : dispatchLoop n evs = some (c, b)) :
    drainTarget n evs = some (if b then c else 0) ∧
    (∀ (s : Scenario) (requests delivered late : List RequestOutcome),
      targetCount s = some n → b = false →
      delivered.length + late.length ≤ c →
      (late = [] →
        scenarioRunExecClose s evs requests delivered late
          = some (aggregate
              (delivered.map (fun r => (workerUnit r s.validates).outcome)))) ∧
      (late ≠ [] →
        scenarioRunExecClose s evs requests delivered late = none)) := by
  constructor
  · unfold drainTarget
    rw [hd]
    rfl
  · intro s requests delivered late hn hb hlen
    subst hb
    constructor
    · intro hl
      subst hl
      simp only [scenarioRunExecClose, hn, hd]
      rfl
    · intro hl
      simp only [scenarioRunExecClose, hn, hd]
      cases late with
      | nil => exact absurd rfl hl
      | cons x xs => rfl

/-- C2 amended witness: target 3, one permit then cancellation: one unit
dispatched, zero completions drained before the close; if the outcome of that
unit was delivered before the close the run returns a report counting it, and
if the worker completes it only after the close the process aborts with no
report. -/
theorem dispatcher_drain_close_amended_witness :
    dispatchLoop 3 [DispatchEvent.permit, DispatchEvent.cancel] = some (1, false) ∧
    drainTarget 3 [DispatchEvent.permit, DispatchEvent.cancel] = some 0 ∧
    scenarioRunExecClose ⟨"s", "u", none, some 3, 1, []⟩
      [DispatchEvent.permit, DispatchEvent.cancel]
      [RequestOutcome.response 200] [RequestOutcome.response 200] []
      = some ⟨1, 0, 0⟩ ∧
    scenarioRunExecClose ⟨"s", "u", none, some 3, 1, []⟩
      [DispatchEvent.permit, DispatchEvent.cancel]
      [RequestOutcome.response 200] [] [RequestOutcome.response 200]
      = none := by
  have h := dispatcher_drain_close_amended 3 [DispatchEvent.permit, DispatchEvent.cancel]
    1 false (by decide)
  refine ⟨by decide, h.1, ?_, ?_⟩
  · exact ((h.2 ⟨"s", "u", none, some 3, 1, []⟩ [RequestOutcome.response 200]
      [RequestOutcome.response 200] [] (by decide) rfl (by decide)).1 rfl).trans
      (by decide)
  · exact (h.2 ⟨"s", "u", none, some 3, 1, []⟩ [RequestOutcome.response 200]
      [] [RequestOutcome.response 200] (by decide) rfl (by decide)).2 (by decide)

/-- C3 counterexample: the claim states that the returned report always
satisfies success + validationFail + requestFail = unitsDispatched, even when
the run is cancelled early. With target 5, one permit and then cancellation,
one unit is dispatched (it sits in the buffered work queue while every worker
takes the cancellation branch), the dispatcher returns without draining and
closes the result channel, and the run returns the all-zero report: the sum
of counts is 0 while unitsDispatched is 1. -/
theorem summary_sum_cancel_cex :
    dispatchLoop 5 [DispatchEvent.permit, DispatchEvent.cancel] = some (1, false) ∧
    List.Sublist ([] : List RequestOutcome) ([RequestOutcome.response 200].take 1) ∧
    scenarioRunExec ⟨"s", "u", none, some 5, 1, []⟩
      [DispatchEvent.permit, DispatchEvent.cancel] [RequestOutcome.response 200] []
      = some ⟨0, 0, 0⟩ ∧
    sumReport ⟨0, 0, 0⟩ = 0 ∧ (0 : Nat) ≠ 1 := by
  exact ⟨by decide, List.nil_sublist _, by decide, by decide, by decide⟩

/-- C3 amended: whenever the run returns a report, the sum of its three
counters equals the number of outcome reports received before the result
channel closed: when the dispatch loop completes by reaching the target
count this equals the number of dispatched units, but when the loop ends
early (cancellation or closed permit stream) it is the number of outcomes
delivered before the close, which can be strictly less than the number of
dispatched units; in all cases the sum never exceeds the number of
dispatched units. -/
theorem summary_sum_amended (s : Scenario) (events : List DispatchEvent)
    (requests delivered : List RequestOutcome) (n : Int) (c : Nat) (b : Bool)
    (rep : ScenarioReport)
    (hn : targetCount s = some n)
    (hd : dispatchLoop n events = some (c, b))
    (hc : c ≤ requests.length)
    (hdel : delivered.Sublist (requests.take c))
    (hrep : scenarioRunExec s events requests delivered = some rep) :
    sumReport rep = (if b then c else delivered.length) ∧ sumReport rep ≤ c := by
  simp only [scenarioRunExec, hn, hd] at hrep
  cases b with
  | true =>
    simp only [if_true] at hrep
    split at hrep
    · injection hrep with h
      subst h
      rw [sumReport_aggregate, List.length_map, List.length_take]
      simp [Nat.min_eq_left hc]
    · exact absurd hrep (by simp)
  | false =>
    simp only [Bool.false_eq_true, if_false] at hrep
    injection hrep with h
    subst h
    rw [sumReport_aggregate, List.length_map]
    refine ⟨rfl, ?_⟩
    calc delivered.length ≤ (requests.take c).length := hdel.length_le
      _ ≤ c := by simp [List.length_take]

/-- C3 amended witness: target 2, two permits, one successful unit and one
request-failed unit: the run completes by count, the sum of counters is 2 and
equals the number of dispatched units. -/
theorem summary_sum_amended_witness :
    dispatchLoop 2 [DispatchEvent.permit, DispatchEvent.permit] = some (2, true) ∧
    scenarioRunExec ⟨"s", "u", none, some 2, 1, []⟩
      [DispatchEvent.permit, DispatchEvent.permit]
      [RequestOutcome.response 200, RequestOutcome.buildErr] []
      = some ⟨1, 0, 1⟩ ∧
    sumReport ⟨1, 0, 1⟩ = (if true then 2 else ([] : List RequestOutcome).length) ∧
    sumReport ⟨1, 0, 1⟩ ≤ 2 := by
  have h := summary_sum_amended ⟨"s", "u", none, some 2, 1, []⟩
    [DispatchEvent.permit, DispatchEvent.permit]
    [RequestOutcome.response 200, RequestOutcome.buildErr] []
    2 2 true ⟨1, 0, 1⟩ (by decide) (by decide) (by decide)
    (List.nil_sublist _) (by decide)
  exact ⟨by decide, by decide, h.1, h.2⟩

/-- C8: with the zero-throughput rate source modelled from the spec (no
permit is ever emitted), a scenario with throughput 0 dispatches 0 units and
every returning execution of the run yields the all-zero report; moreover
with a period-based termination condition the computed target count itself
is 0. Holds for both termination conditions: the target from a period is 0,
and with an explicit count the dispatch loop consumes no permits. -/
theorem zero_throughput_all_zero (s : Scenario) (evs : List DispatchEvent)
    (requests delivered : List RequestOutcome) (n : Int) (c : Nat) (b : Bool)
    (hz : s.throughput = 0)
    (hevs : ZeroRateSchedule evs)
    (hn : targetCount s = some n)
    (hd : dispatchLoop n evs = some (c, b))
    (hdel : delivered.Sublist (requests.take c)) :
    c = 0 ∧ (∀ p, s.period = some p → n = 0) ∧
    scenarioRunExec s evs requests delivered = some ⟨0, 0, 0⟩ := by
  have hc0 : c = 0 := dispatchLoop_no_permit n evs c b hevs hd
  subst hc0
  have hdel0 : delivered = [] := List.sublist_nil.mp (by simpa using hdel)
  refine ⟨rfl, ?_, ?_⟩
  · intro p hp
    simp only [targetCount, hp, hz, mul_zero, Int.ceil_zero] at hn
    exact (Option.some.inj hn).symm
  · simp only [scenarioRunExec, hn, hd]
    cases b <;> simp [hdel0, aggregate]

/-- C8 witness: a period-based scenario (period 7, throughput 0) returns the
all-zero report on the empty schedule, and a count-based scenario (count 5,
throughput 0) returns the all-zero report once cancellation arrives. -/
theorem zero_throughput_all_zero_witness :
    (⟨"s", "u", some 7, none, 0, []⟩ : Scenario).throughput = 0 ∧
    targetCount ⟨"s", "u", some 7, none, 0, []⟩ = some 0 ∧
    scenarioRunExec ⟨"s", "u", some 7, none, 0, []⟩ [] [] [] = some ⟨0, 0, 0⟩ ∧
    scenarioRunExec ⟨"s", "u", none, some 5, 0, []⟩ [DispatchEvent.cancel] [] []
      = some ⟨0, 0, 0⟩ := by
  have hn : targetCount ⟨"s", "u", some 7, none, 0, []⟩ = some 0 := by
    simp [targetCount]
  refine ⟨rfl, hn, ?_, ?_⟩
  · exact (zero_throughput_all_zero ⟨"s", "u", some 7, none, 0, []⟩ [] [] [] 0 0 true
      rfl (List.not_mem_nil _) hn (by decide) (List.nil_sublist _)).2.2
  · exact (zero_throughput_all_zero ⟨"s", "u", none, some 5, 0, []⟩
      [DispatchEvent.cancel] [] [] 5 0 false rfl (by simp [ZeroRateSchedule])
      (by decide) (by decide) (List.nil_sublist _)).2.2
